import Mathlib

/-!
Verification of the fingerprint-gated index-options resolver of the
zoekt-sourcegraph-indexserver client (`sourcegraphClient` and its test
double `sourcegraphFake`).

The embedding models:
* the per-repository configuration record `IndexOptions` and the wire item
  `indexOptionsItem` together with its proto round trip
  (`FromProto` / `ToProto`);
* the batch splitter `batched`;
* the resolution closure produced by `mkGetIndexOptionsFunc` and the
  `iterate` loop of `sourcegraphClient.List`, as a fold over the list of
  batches with explicit closure state `(configFingerprint, first)`;
* `ForceIterateIndexOptions` as a trace of `onSuccess` / `onError`
  callback events;
* the fingerprint-reset step of `List` (deadline check, next-deadline
  computation with jitter) over `int64` nanosecond durations with Go's
  wrap-around and truncated division;
* the test double's deterministic repository ID `fakeID` including the
  CRC-32/IEEE checksum it is built on.

Transports (`getIndexOptionsREST` / `getIndexOptionsGRPC`) are external
collaborators: they are modelled as an oracle function from a fingerprint
and a batch of repository IDs to either a transport-level error or a list
of items plus a next fingerprint.  The fingerprint type is kept generic
(`Fp`): instantiating it with `String` gives the REST client and with an
optional structured token the gRPC client; the resolver code is
structurally identical in both variants.
-/

/-- `zoekt.RepositoryBranch`: a (branch name, resolved commit) pair. -/
structure RepositoryBranch where
  Name : String
  Version : String

/-- Modelled from the spec: the per-repository configuration record
`IndexOptions` (its struct declaration is outside the given sources; the
field set is taken from the spec's data model and from every field access
in `FromProto` / `ToProto` / `sourcegraphFake.getIndexOptions`).
`LanguageMap` (a Go `map[string]uint8`) is modelled as an association
list with one entry per key, listed in iteration order. -/
structure IndexOptions where
  RepoID : Nat := 0
  Name : String := ""
  CloneURL : String := ""
  LargeFiles : List String := []
  Symbols : Bool := false
  Branches : List RepositoryBranch := []
  Priority : Float := 0.0
  DocumentRanksVersion : String := ""
  Public : Bool := false
  Fork : Bool := false
  Archived : Bool := false
  LanguageMap : List (String × Nat) := []

/-- `indexOptionsItem`: `IndexOptions` plus the per-repository error string
returned by the API (empty means success). -/
structure indexOptionsItem where
  IndexOptions : IndexOptions := {}
  Error : String := ""

/-- Proto message `ZoektRepositoryBranch`. -/
structure ZoektRepositoryBranch where
  Name : String
  Version : String

/-- Proto message `LanguageMapping`; `Ctags` is the `CTagsParserType`
enum, an `int32` value. -/
structure LanguageMapping where
  Language : String
  Ctags : Int

/-- Proto message `ZoektIndexOptions` (`RepoId` is an `int32`). -/
structure ZoektIndexOptions where
  RepoId : Int
  LargeFiles : List String
  Symbols : Bool
  Branches : List ZoektRepositoryBranch
  Name : String
  Priority : Float
  DocumentRanksVersion : String
  Public : Bool
  Fork : Bool
  Archived : Bool
  Error : String
  LanguageMap : List LanguageMapping

/-- Go conversion `int32(n)` applied to a `uint32` value: reduce modulo
`2^32` and reinterpret the bit pattern as a signed two's-complement
number. -/
def toInt32 (n : Nat) : Int :=
  if n % 4294967296 < 2147483648 then (n % 4294967296 : Int)
  else (n % 4294967296 : Int) - 4294967296

/-- Go conversion `uint32(v)` applied to an `int32` value: the low 32 bits
of the two's-complement representation. -/
def toUInt32 (v : Int) : Nat := (v % 4294967296).toNat

/-- Go conversion `uint8(v)` applied to an `int32` value: the low 8 bits
of the two's-complement representation. -/
def toUInt8 (v : Int) : Nat := (v % 256).toNat

/-- `indexOptionsItem.FromProto`: decode a `ZoektIndexOptions` message.
The fresh item's `CloneURL` is the string zero value (clone URLs are not
carried on the wire; callers derive them from the repository name). -/
def indexOptionsItem.FromProto (x : ZoektIndexOptions) : indexOptionsItem :=
  { IndexOptions :=
      { RepoID := toUInt32 x.RepoId
        LargeFiles := x.LargeFiles
        Symbols := x.Symbols
        Branches := x.Branches.map (fun b => { Name := b.Name, Version := b.Version })
        Name := x.Name
        CloneURL := ""
        Priority := x.Priority
        DocumentRanksVersion := x.DocumentRanksVersion
        Public := x.Public
        Fork := x.Fork
        Archived := x.Archived
        LanguageMap := x.LanguageMap.map (fun l => (l.Language, toUInt8 l.Ctags)) }
    Error := x.Error }

/-- `indexOptionsItem.ToProto`: encode an item as a `ZoektIndexOptions`
message.  `CloneURL` has no proto field and is dropped; `Ctags` stores the
`uint8` parser selector as the `CTagsParserType` enum value (`int32`,
exact for values below `2^31`). -/
def indexOptionsItem.ToProto (o : indexOptionsItem) : ZoektIndexOptions :=
  { RepoId := toInt32 o.IndexOptions.RepoID
    LargeFiles := o.IndexOptions.LargeFiles
    Symbols := o.IndexOptions.Symbols
    Branches := o.IndexOptions.Branches.map (fun b => { Name := b.Name, Version := b.Version })
    Name := o.IndexOptions.Name
    Priority := o.IndexOptions.Priority
    DocumentRanksVersion := o.IndexOptions.DocumentRanksVersion
    Public := o.IndexOptions.Public
    Fork := o.IndexOptions.Fork
    Archived := o.IndexOptions.Archived
    Error := o.Error
    LanguageMap := o.IndexOptions.LanguageMap.map
      (fun p => { Language := p.1, Ctags := (p.2 : Int) }) }

/-- Fuel-indexed worker for `batched`; the fuel is an upper bound on the
input length, so the fuel is never exhausted at the call site. -/
def batchedFuel (size : Nat) : Nat → List Nat → List (List Nat)
  | _, [] => []
  | 0, _ => []
  | fuel + 1, x :: xs => (x :: xs).take size :: batchedFuel size fuel ((x :: xs).drop size)

/-- Modelled from the spec: the `batched` helper (its definition is
outside the given sources) splits an ordered sequence of repository IDs
into consecutive chunks of at most `size` elements, preserving order and
covering every ID exactly once. -/
def batched (xs : List Nat) (size : Nat) : List (List Nat) :=
  batchedFuel size xs.length xs

/-- A transport-level call outcome for one batch: either an error, or a
list of per-repository items together with the response's next
fingerprint.  This is the common shape of `getIndexOptionsREST` and
`getIndexOptionsGRPC`; `Fp` is `String` for REST and an optional
structured token for gRPC. -/
abbrev Transport (Fp : Type) := Fp → List Nat → Except String (List indexOptionsItem × Fp)

/-- Whether a transport call succeeded. -/
def exceptOk {ε α : Type} : Except ε α → Bool
  | .ok _ => true
  | .error _ => false

/-- The inner loop of `iterate` over one successful batch response: items
with a non-empty `Error` are skipped, every other item's `IndexOptions`
is handed to the consumer callback, in response order.  The returned list
is the sequence of callback invocations. -/
def processBatch : List indexOptionsItem → List IndexOptions
  | [] => []
  | o :: rest => if o.Error ≠ "" then processBatch rest else o.IndexOptions :: processBatch rest

/-- Prepend one batch's deliveries to the result of the remaining
batches. -/
def consDelivered {σ : Type} (d : List IndexOptions) (r : List IndexOptions × σ) :
    List IndexOptions × σ :=
  (d ++ r.1, r.2)

/-- The batch loop of `iterate` together with the resolution closure
produced by `mkGetIndexOptionsFunc`.  The closure state is the pair
`(configFingerprint, first)`: on a transport error the closure sets
`first := false` and `configFingerprint := startingFp`; on success it
commits the response's next fingerprint only when `first` is still true.
A failed batch is skipped (`continue`) and delivers nothing. -/
def runBatches {Fp : Type} (t : Transport Fp) (startingFp : Fp) :
    List (List Nat) → Fp × Bool → List IndexOptions × (Fp × Bool)
  | [], st => ([], st)
  | b :: rest, st =>
    match t startingFp b with
    | .error _ => runBatches t startingFp rest (startingFp, false)
    | .ok (opts, nextFp) =>
      consDelivered (processBatch opts)
        (runBatches t startingFp rest (if st.2 then (nextFp, false) else st))

/-- One full consumption of `SourcegraphListResult.IterateIndexOptions`:
`fp0` is the client's stored fingerprint when the iteration starts (the
closure captures it as `startingFingerPrint`).  Returns the sequence of
consumer-callback invocations and the client's stored fingerprint after
the pass. -/
def iteratePass {Fp : Type} (t : Transport Fp) (fp0 : Fp) (repos : List Nat) (bs : Nat) :
    List IndexOptions × Fp :=
  ((runBatches t fp0 (batched repos bs) (fp0, true)).1,
   (runBatches t fp0 (batched repos bs) (fp0, true)).2.1)

/-- The deliveries contributed by a single batch outcome. -/
def deliveredOf {Fp : Type} : Except String (List indexOptionsItem × Fp) → List IndexOptions
  | .error _ => []
  | .ok (opts, _) => processBatch opts

/-- A callback invocation made by `ForceIterateIndexOptions`: either
`onSuccess(options)` or `onError(repoID, err)`. -/
inductive Event where
  | ok (o : IndexOptions)
  | err (id : Nat) (msg : String)

/-- The callbacks triggered by one response item in
`ForceIterateIndexOptions`: `onError` when `RepoID > 0` and the error is
non-empty, `onSuccess` when the error is empty (in that order, as in the
source's two consecutive `if` statements). -/
def procItem (o : indexOptionsItem) : List Event :=
  (if 0 < o.IndexOptions.RepoID ∧ o.Error ≠ "" then [Event.err o.IndexOptions.RepoID o.Error]
   else []) ++
  (if o.Error = "" then [Event.ok o.IndexOptions] else [])

/-- `sourcegraphClient.ForceIterateIndexOptions`: every batch is requested
with the empty/absent fingerprint `empty`, the response fingerprint is
discarded, a batch-level transport failure routes `onError` to every ID
of the batch, and a successful response is folded item-wise through
`procItem`.  Returns the trace of callback invocations. -/
def forceIterate {Fp : Type} (t : Transport Fp) (empty : Fp) (bs : Nat) (repos : List Nat) :
    List Event :=
  (batched repos bs).flatMap fun b =>
    match t empty b with
    | .error e => b.map (fun id => Event.err id e)
    | .ok (opts, _) => opts.flatMap procItem

/-- The client's mutable fingerprint state (REST representation):
`configFingerprint` and the scheduled reset time `configFingerprintReset`
(nanoseconds, `int64`). -/
structure ClientState where
  configFingerprint : String
  configFingerprintReset : Int

/-- `ForceIterateIndexOptions` as a state transformer over the client's
fingerprint state: its body never reads or writes `configFingerprint` or
`configFingerprintReset` (the fingerprint argument of every request is
the literal empty fingerprint), so the state component is returned
untouched. -/
def forceIterateClient (c : ClientState) (t : Transport String) (bs : Nat) (repos : List Nat) :
    List Event × ClientState :=
  (forceIterate t "" bs repos, c)

/-- Go `int64` wrap-around: reduce into `[-2^63, 2^63)`. -/
def wrap64 (x : Int) : Int := (x + 2 ^ 63) % 2 ^ 64 - 2 ^ 63

/-- `next := time.Duration(len(indexed)) * time.Minute / 500` — `int64`
nanosecond arithmetic with wrap-around on the multiply and Go's truncated
division. -/
def resetNextRaw (n : Nat) : Int := Int.tdiv (wrap64 ((n : Int) * 60000000000)) 500

/-- The pre-jitter next-reset duration: `next`, floored at 5 minutes
(`300000000000` ns). -/
def resetBase (n : Nat) : Int :=
  if resetNextRaw n < 300000000000 then 300000000000 else resetNextRaw n

/-- The next-reset duration after adding the jitter draw
`rand.Int63n(int64(next)/4)`. -/
def nextResetDuration (n : Nat) (draw : Nat) : Int := resetBase n + (draw : Int)

/-- The possible outcomes of the jitter draw: `rand.Int63n(k)` returns a
value in `[0, k)` with `k = next / 4`. -/
abbrev validDraw (n : Nat) (draw : Nat) : Prop := (draw : Int) < Int.tdiv (resetBase n) 4

/-- The fingerprint-reset step at the top of `sourcegraphClient.List`: if
`time.Now().After(configFingerprintReset)`, clear the stored fingerprint
and schedule the next reset `nextResetDuration` from now. -/
def resetStep (c : ClientState) (now : Int) (draw : Nat) (indexed : List Nat) : ClientState :=
  if c.configFingerprintReset < now then
    { configFingerprint := ""
      configFingerprintReset := now + nextResetDuration indexed.length draw }
  else c

/-- Consuming the iterator returned by `List`: run `iteratePass` from the
client's stored fingerprint and store the pass's final fingerprint. -/
def resolvePass (c : ClientState) (t : Transport String) (repos : List Nat) (bs : Nat) :
    List IndexOptions × ClientState :=
  ((iteratePass t c.configFingerprint repos bs).1,
   { c with configFingerprint := (iteratePass t c.configFingerprint repos bs).2 })

/-- A full `List` pass (REST client): the reset check of `List` followed
by a complete consumption of the returned iterator.  `now` is the current
time, `draw` the jitter draw, `indexed` the indexed-IDs argument of
`List`, `repos` is the ID set returned by `listRepoIDs`, and `bs` the
effective batch size. -/
def listPass (c : ClientState) (now : Int) (draw : Nat) (indexed : List Nat)
    (t : Transport String) (repos : List Nat) (bs : Nat) : List IndexOptions × ClientState :=
  resolvePass (resetStep c now draw indexed) t repos bs

/-- One shift-and-conditional-xor round of the reflected CRC-32
computation with the IEEE polynomial `0xEDB88320`. -/
def crc32Bit (c : Nat) : Nat :=
  if c % 2 = 1 then (c / 2) ^^^ 0xEDB88320 else c / 2

/-- Iterate `crc32Bit`. -/
def crc32Bits : Nat → Nat → Nat
  | 0, c => c
  | k + 1, c => crc32Bits k (crc32Bit c)

/-- Process one input byte of the CRC-32 computation. -/
def crc32Update (c : Nat) (b : Nat) : Nat := crc32Bits 8 (c ^^^ b % 256)

/-- Modelled from the spec: the checksum used for the test double's
deterministic repository ID is Go's `hash/crc32.ChecksumIEEE` (an
external library), the standard reflected CRC-32 with the IEEE
polynomial: initial value `0xFFFFFFFF`, one `crc32Update` per input byte,
final complement. -/
def checksumIEEE (bytes : List Nat) : Nat :=
  0xFFFFFFFF ^^^ bytes.foldl crc32Update 0xFFFFFFFF

/-- `fakeID`: deterministic repository ID of the test double, computed
over the repository name's bytes:
`uint32(crc32.ChecksumIEEE([]byte(name)) % (1<<31 - 1) + 1)`
(`uint32` arithmetic; the final conversion keeps the low 32 bits). -/
def fakeID (name : List Nat) : Nat :=
  (checksumIEEE name % 2147483647 + 1) % 4294967296

/-- Counterexample transport for the fingerprint-mutation claims: batch
`[1]` succeeds returning next fingerprint `"F1"`, every other batch fails
at the transport level. -/
def cexT : Transport String := fun _ b =>
  if b = [1] then Except.ok ([], "F1") else Except.error "boom"

/-- Scenario item: repository 1 resolves successfully. -/
def scItem1 : indexOptionsItem := { IndexOptions := { RepoID := 1, Name := "repo1" } }

/-- Scenario item: repository 2 is reported with error `"not found"`. -/
def scItem2 : indexOptionsItem :=
  { IndexOptions := { RepoID := 0, Name := "repo2" }, Error := "not found" }

/-- Scenario item: repository 3 resolves successfully. -/
def scItem3 : indexOptionsItem := { IndexOptions := { RepoID := 3, Name := "repo3" } }

/-- Scenario transport: batch `[1, 2]` returns items for 1 and 2 and
fingerprint `"F1"`; batch `[3]` returns the item for 3 and fingerprint
`"F2"`. -/
def scT : Transport String := fun _ b =>
  if b = [1, 2] then Except.ok ([scItem1, scItem2], "F1")
  else if b = [3] then Except.ok ([scItem3], "F2")
  else Except.error "unexpected batch"

/-- Transport that fails every call. -/
def failT : Transport String := fun _ _ => Except.error "boom"

/-- Item delivered by the second batch of the batch-isolation witness. -/
def w5Item : indexOptionsItem := { IndexOptions := { RepoID := 2, Name := "ok-repo" } }

/-- Batch-isolation witness transport: batch `[1]` fails, batch `[2]`
succeeds. -/
def w5T : Transport String := fun _ b =>
  if b = [1] then Except.error "x" else Except.ok ([w5Item], "G")

/-- An item with a per-repository error, for the per-repository-isolation
witness. -/
def w6ItemA : indexOptionsItem :=
  { IndexOptions := { RepoID := 7, Name := "bad" }, Error := "clone failed" }

/-- An error-free item, for the per-repository-isolation witness. -/
def w6ItemB : indexOptionsItem := { IndexOptions := { RepoID := 8, Name := "good" } }

/-- A response item carrying `RepoID = 0` and a non-empty error, as the
control plane (and the test double's `GetIndexOptions`) returns for a
requested ID it does not know. -/
def nfItem : indexOptionsItem := { IndexOptions := { RepoID := 0 }, Error := "not found" }

/-- Transport whose every successful response consists of the single
not-found item `nfItem`. -/
def c7T : Transport String := fun _ _ => Except.ok ([nfItem], "F")

/-- Whether a callback event is for the given repository ID. -/
def isForRepo (id : Nat) : Event → Bool
  | Event.ok o => o.RepoID == id
  | Event.err i _ => i == id

/-- Transport for the forced-iteration witness: every call fails with
message `"down"`. -/
def w7T : Transport String := fun _ _ => Except.error "down"

/-- Item returned by the bypass-witness transports. -/
def w8Item : indexOptionsItem := { IndexOptions := { RepoID := 9, Name := "w" } }

/-- Bypass-witness transport 1: answers only the empty fingerprint, with
next fingerprint `"X"`. -/
def wt1 : Transport String := fun fp _ =>
  if fp = "" then Except.ok ([w8Item], "X") else Except.error "z"

/-- Bypass-witness transport 2: same items as `wt1` at the empty
fingerprint but a different next fingerprint, and different behaviour at
every non-empty fingerprint. -/
def wt2 : Transport String := fun fp _ =>
  if fp = "" then Except.ok ([w8Item], "Y") else Except.ok ([], "W")

/-- Round-trip witness item, with a non-trivial value in every field. -/
def w10Item : indexOptionsItem :=
  { IndexOptions :=
      { RepoID := 42
        Name := "github.com/a/b"
        CloneURL := "http://sourcegraph/.internal/git/github.com/a/b"
        LargeFiles := ["*.pb.go"]
        Symbols := true
        Branches := [{ Name := "HEAD", Version := "abc123" }]
        Priority := 1.5
        DocumentRanksVersion := "v1"
        Public := true
        Fork := false
        Archived := true
        LanguageMap := [("go", 3), ("c", 0)] }
    Error := "" }

/-- With enough fuel, the chunks produced by `batchedFuel` concatenate
back to the input list (positive chunk size). -/
theorem batchedFuel_flatten (k : Nat) (fuel : Nat) :
    ∀ xs : List Nat, xs.length ≤ fuel → (batchedFuel (k + 1) fuel xs).flatten = xs := by
  induction fuel with
  | zero =>
    intro xs h
    cases xs with
    | nil => rfl
    | cons x l => simp at h
  | succ f ih =>
    intro xs h
    cases xs with
    | nil => rfl
    | cons x l =>
      simp only [batchedFuel, List.flatten_cons]
      rw [ih ((x :: l).drop (k + 1))
        (by simp only [List.length_cons] at h; simp only [List.length_drop, List.length_cons];
            omega)]
      exact List.take_append_drop _ _

/-- Batching completeness: the batches cover every ID exactly once in the
original order. -/
theorem batched_flatten (xs : List Nat) (k : Nat) : (batched xs (k + 1)).flatten = xs :=
  batchedFuel_flatten k xs.length xs (Nat.le_refl _)

/-- The deliveries of a pass are the concatenation of each batch's
deliveries, independently of the closure state. -/
theorem runBatches_delivered {Fp : Type} (t : Transport Fp) (s : Fp) (bs : List (List Nat)) :
    ∀ st : Fp × Bool, (runBatches t s bs st).1 = bs.flatMap (fun b => deliveredOf (t s b)) := by
  induction bs with
  | nil => intro st; rfl
  | cons b rest ih =>
    intro st
    cases h : t s b with
    | error e => simp [runBatches, h, ih, deliveredOf]
    | ok v => simp [runBatches, h, consDelivered, ih, deliveredOf]

/-- Once the closure's `first` flag is false, the fingerprint after the
remaining batches is the current one if they all succeed and the starting
fingerprint otherwise. -/
theorem runBatches_fp_state {Fp : Type} (t : Transport Fp) (s : Fp) (bs : List (List Nat)) :
    ∀ fp : Fp, (runBatches t s bs (fp, false)).2.1 =
      if bs.all (fun b => exceptOk (t s b)) then fp else s := by
  induction bs with
  | nil => intro fp; simp [runBatches]
  | cons b rest ih =>
    intro fp
    cases h : t s b with
    | error e => simp [runBatches, h, exceptOk, ih]
    | ok v => simp [runBatches, h, consDelivered, exceptOk, ih]

/-- An error-free item of a batch response is delivered to the consumer
callback. -/
theorem processBatch_mem (items : List indexOptionsItem) (o : indexOptionsItem)
    (ho : o ∈ items) (he : o.Error = "") : o.IndexOptions ∈ processBatch items := by
  induction items with
  | nil => cases ho
  | cons i rest ih =>
    rcases List.mem_cons.mp ho with h | h
    · subst h
      simp [processBatch, he]
    · by_cases hi : i.Error = ""
      · simp only [processBatch, hi, ne_eq, not_true_eq_false, if_neg, not_false_eq_true,
          if_false]
        exact List.mem_cons_of_mem _ (ih h)
      · simp only [processBatch, ne_eq, hi, not_false_eq_true, if_true]
        exact ih h

/-- The consumer callback is invoked exactly for the error-free items of
a batch response, in response order. -/
theorem processBatch_filter_map (items : List indexOptionsItem) :
    processBatch items = (items.filter (fun o => o.Error == "")).map (fun o => o.IndexOptions) := by
  induction items with
  | nil => rfl
  | cons i rest ih =>
    by_cases hi : i.Error = ""
    · simp [processBatch, List.filter_cons, hi, ih]
    · simp [processBatch, List.filter_cons, hi, ih]

/-- Truncated division agrees with Euclidean division on non-negative
numerators. -/
theorem tdiv_nonneg_eq_ediv (a : Int) (h : 0 ≤ a) : Int.tdiv a 4 = a / 4 := by
  obtain ⟨m, rfl⟩ := Int.eq_ofNat_of_zero_le h
  rw [show (4 : Int) = ((4 : Nat) : Int) from rfl, ← Int.ofNat_tdiv, ← Int.ofNat_ediv]

/-- The pre-jitter next-reset duration is at least 5 minutes. -/
theorem resetBase_lb (n : Nat) : 300000000000 ≤ resetBase n := by
  unfold resetBase
  split <;> omega

/-- Unfolding lemma: one successful batch call of the resolution
closure. -/
theorem runBatches_cons_ok {Fp : Type} (t : Transport Fp) (s : Fp) (b : List Nat)
    (rest : List (List Nat)) (st : Fp × Bool) (opts : List indexOptionsItem) (nextFp : Fp)
    (h : t s b = Except.ok (opts, nextFp)) :
    runBatches t s (b :: rest) st =
      consDelivered (processBatch opts)
        (runBatches t s rest (if st.2 then (nextFp, false) else st)) := by
  simp [runBatches, h]

/-- Unfolding lemma: one failed batch call of the resolution closure. -/
theorem runBatches_cons_err {Fp : Type} (t : Transport Fp) (s : Fp) (b : List Nat)
    (rest : List (List Nat)) (st : Fp × Bool) (e : String)
    (h : t s b = Except.error e) :
    runBatches t s (b :: rest) st = runBatches t s rest (s, false) := by
  simp [runBatches, h]

/-- C1 (counterexample): with starting fingerprint `"F0"`, the first
batch `[1]` succeeds and returns fingerprint `"F1"` — a one-batch pass
indeed stores `"F1"` — but when a second batch `[2]` follows and fails at
the transport level, the pass ends with stored fingerprint `"F0"`, not
`"F1"`: the subsequent failing batch mutated the stored fingerprint
again, contradicting the claim's "regardless of whether that subsequent
batch succeeds or fails". -/
theorem iterate_fingerprint_mutated_by_later_failing_batch :
    cexT "F0" [1] = Except.ok ([], "F1") ∧
    (iteratePass cexT "F0" [1] 1).2 = "F1" ∧
    exceptOk (cexT "F0" [2]) = false ∧
    (iteratePass cexT "F0" [1, 2] 1).2 = "F0" ∧
    ("F0" : String) ≠ "F1" :=
  ⟨rfl, rfl, rfl, rfl, by decide⟩

/-- C1 (amended): in a List pass whose first batch's options fetch
succeeds, the stored fingerprint is set to that batch's returned next
fingerprint; subsequent *successful* batches never mutate it (their
returned fingerprints are discarded), while a subsequent transport-level
*failure* resets the stored fingerprint to the pass's starting
fingerprint.  Hence the final stored fingerprint is the first batch's
returned fingerprint if every later batch succeeds, and the starting
fingerprint otherwise. -/
theorem iterate_fingerprint_first_batch_commit {Fp : Type} (t : Transport Fp) (fp0 : Fp)
    (repos : List Nat) (bs : Nat) (b0 : List Nat) (rest : List (List Nat))
    (o0 : List indexOptionsItem) (f1 : Fp)
    (hb : batched repos bs = b0 :: rest)
    (hfirst : t fp0 b0 = Except.ok (o0, f1)) :
    (iteratePass t fp0 repos bs).2 =
      if rest.all (fun b => exceptOk (t fp0 b)) then f1 else fp0 := by
  unfold iteratePass
  rw [hb, runBatches_cons_ok t fp0 b0 rest (fp0, true) o0 f1 hfirst]
  simp only [consDelivered]
  exact runBatches_fp_state t fp0 rest f1

/-- Witness for the amended C1 theorem at a concrete input: first batch
succeeds with next fingerprint `"F1"`, the remaining batch fails, and the
pass ends on the starting fingerprint `"F0"`. -/
theorem iterate_fingerprint_first_batch_commit_witness :
    batched [1, 2] 1 = [[1], [2]] ∧
    cexT "F0" [1] = Except.ok ([], "F1") ∧
    (iteratePass cexT "F0" [1, 2] 1).2 =
      (if [[2]].all (fun b => exceptOk (cexT "F0" b)) then "F1" else "F0") :=
  ⟨rfl, rfl, iterate_fingerprint_first_batch_commit cexT "F0" [1, 2] 1 [1] [[2]] [] "F1" rfl rfl⟩

/-- C2: across a List pass whose batches all succeed at the transport
level, the fingerprint stored afterward is the one returned by the first
batch's response (later responses' fingerprints are discarded). -/
theorem iterate_fingerprint_single_advance {Fp : Type} (t : Transport Fp) (fp0 : Fp)
    (repos : List Nat) (bs : Nat) (b0 : List Nat) (rest : List (List Nat))
    (o0 : List indexOptionsItem) (f1 : Fp)
    (hb : batched repos bs = b0 :: rest)
    (hrest : rest ≠ [])
    (hfirst : t fp0 b0 = Except.ok (o0, f1))
    (hall : rest.all (fun b => exceptOk (t fp0 b)) = true) :
    (iteratePass t fp0 repos bs).2 = f1 := by
  unfold iteratePass
  rw [hb, runBatches_cons_ok t fp0 b0 rest (fp0, true) o0 f1 hfirst]
  simp only [consDelivered]
  show (runBatches t fp0 rest (f1, false)).2.1 = f1
  rw [runBatches_fp_state t fp0 rest f1, if_pos hall]

/-- Witness for C2, the spec's concrete scenario: repositories
`{1, 2, 3}` with batch size 2; batch `[1, 2]` returns options for 1, the
error `"not found"` for 2 and fingerprint `"F1"`; batch `[3]` returns
options for 3 and fingerprint `"F2"`.  The stored fingerprint after the
pass is `"F1"` and the consumer is invoked exactly for repositories 1 and
3, in order. -/
theorem iterate_fingerprint_single_advance_witness :
    batched [1, 2, 3] 2 = [[1, 2], [3]] ∧
    scT "F0" [1, 2] = Except.ok ([scItem1, scItem2], "F1") ∧
    scT "F0" [3] = Except.ok ([scItem3], "F2") ∧
    (iteratePass scT "F0" [1, 2, 3] 2).2 = "F1" ∧
    (iteratePass scT "F0" [1, 2, 3] 2).1 = [scItem1.IndexOptions, scItem3.IndexOptions] :=
  ⟨rfl, rfl, rfl,
    iterate_fingerprint_single_advance scT "F0" [1, 2, 3] 2 [1, 2] [[3]] [scItem1, scItem2] "F1"
      rfl (by decide) rfl rfl,
    rfl⟩

/-- C3 (counterexample): a List pass in which the stored reset deadline
has passed first clears the stored fingerprint; if the first batch then
fails at the transport level, the fingerprint after the call is the empty
string, not the value `"F"` held before the List pass began — the claim's
universal "state unchanged on error" fails on such passes. -/
theorem list_fingerprint_rollback_reset_cex :
    ((⟨"F", 0⟩ : ClientState).configFingerprintReset < (1 : Int)) ∧
    validDraw 0 0 ∧
    failT "" [1] = Except.error "boom" ∧
    (listPass ⟨"F", 0⟩ 1 0 [] failT [1] 1).2.configFingerprint = "" ∧
    ("" : String) ≠ "F" :=
  ⟨by decide, by decide, rfl, rfl, by decide⟩

/-- C3 (amended): in a List pass whose stored reset deadline has not
passed (so the pass does not clear the fingerprint), if the first batch's
options fetch fails at the transport level then the fingerprint stored
after the call equals the fingerprint held before the List pass began, so
the next List call retries from the same baseline. -/
theorem list_fingerprint_rollback_first_batch_failure
    (c : ClientState) (now : Int) (draw : Nat) (indexed : List Nat)
    (t : Transport String) (repos : List Nat) (bs : Nat)
    (b0 : List Nat) (rest : List (List Nat)) (e : String)
    (hnr : ¬ c.configFingerprintReset < now)
    (hb : batched repos bs = b0 :: rest)
    (hfail : t c.configFingerprint b0 = Except.error e) :
    (listPass c now draw indexed t repos bs).2.configFingerprint = c.configFingerprint := by
  unfold listPass resetStep
  rw [if_neg hnr]
  unfold resolvePass iteratePass
  rw [hb, runBatches_cons_err t c.configFingerprint b0 rest (c.configFingerprint, true) e hfail]
  simp only [runBatches_fp_state]
  split <;> rfl

/-- Witness for the amended C3 theorem: deadline not passed, first batch
fails, stored fingerprint stays `"F"`. -/
theorem list_fingerprint_rollback_first_batch_failure_witness :
    (¬ (⟨"F", 10⟩ : ClientState).configFingerprintReset < (1 : Int)) ∧
    batched [1] 1 = [[1]] ∧
    failT "F" [1] = Except.error "boom" ∧
    (listPass ⟨"F", 10⟩ 1 0 [] failT [1] 1).2.configFingerprint = "F" :=
  ⟨by decide, rfl, rfl,
    list_fingerprint_rollback_first_batch_failure ⟨"F", 10⟩ 1 0 [] failT [1] 1 [1] [] "boom"
      (by decide) rfl rfl⟩

/-- C4 (counterexample): with zero indexed repositories the pre-jitter
duration is floored at 5 minutes (`300000000000` ns) and the jitter draw
may still be any value below `5min/4`; the draw `1` is possible
(`validDraw 0 1`) and yields a duration strictly above the claim's bound
`5min + 1.25 × (0 × 1min / 500) = 5min`. -/
theorem reset_duration_claim_bound_cex :
    validDraw 0 1 ∧
    ¬ (nextResetDuration 0 1 ≤ 300000000000 + 150000000 * 0) :=
  ⟨by decide, by decide⟩

/-- C4 (amended): for every indexed-ID count `n` and every possible
jitter draw, the computed next-reset duration `d` satisfies
`5min ≤ d` and `d ≤ 1.25 × max(5min, n × 1min / 500)`, i.e.
`4 * d ≤ 5 * resetBase n`. -/
theorem reset_duration_jitter_bound (n draw : Nat) (h : validDraw n draw) :
    300000000000 ≤ nextResetDuration n draw ∧
    4 * nextResetDuration n draw ≤ 5 * resetBase n := by
  have hb := resetBase_lb n
  unfold validDraw at h
  rw [tdiv_nonneg_eq_ediv _ (by omega)] at h
  unfold nextResetDuration
  omega

/-- Witness for the amended C4 theorem at `n = 1000`, `draw = 7`. -/
theorem reset_duration_jitter_bound_witness :
    validDraw 1000 7 ∧
    (300000000000 ≤ nextResetDuration 1000 7 ∧
      4 * nextResetDuration 1000 7 ≤ 5 * resetBase 1000) :=
  ⟨by decide, reset_duration_jitter_bound 1000 7 (by decide)⟩

/-- C5: in a List pass with more than one batch in which exactly one
batch's transport call fails, the iteration runs to completion (it is a
total fold over all batches; a failed batch is skipped, no error is
surfaced to the caller) and every item with an empty error field in every
*other* batch is still delivered to the consumer callback. -/
theorem iterate_batch_isolation {Fp : Type} (t : Transport Fp) (fp0 : Fp)
    (repos : List Nat) (bs : Nat) (i j : Nat)
    (hi : i < (batched repos bs).length) (hj : j < (batched repos bs).length)
    (hlen : 1 < (batched repos bs).length) (hne : j ≠ i)
    (e : String) (opts : List indexOptionsItem) (fj : Fp) (item : indexOptionsItem)
    (hfail : t fp0 ((batched repos bs).get ⟨i, hi⟩) = Except.error e)
    (hok : ∀ (k : Nat) (hk : k < (batched repos bs).length), k ≠ i →
      exceptOk (t fp0 ((batched repos bs).get ⟨k, hk⟩)) = true)
    (hresp : t fp0 ((batched repos bs).get ⟨j, hj⟩) = Except.ok (opts, fj))
    (hmem : item ∈ opts) (herr : item.Error = "") :
    item.IndexOptions ∈ (iteratePass t fp0 repos bs).1 := by
  unfold iteratePass
  rw [runBatches_delivered t fp0 (batched repos bs) (fp0, true)]
  refine List.mem_flatMap.mpr ⟨(batched repos bs).get ⟨j, hj⟩, List.get_mem _ _ hj, ?_⟩
  rw [hresp]
  exact processBatch_mem opts item hmem herr

/-- Witness for C5: two batches, the first fails, the second's error-free
item is still delivered. -/
theorem iterate_batch_isolation_witness :
    w5T "F0" [1] = Except.error "x" ∧
    w5T "F0" [2] = Except.ok ([w5Item], "G") ∧
    w5Item.Error = "" ∧
    w5Item.IndexOptions ∈ (iteratePass w5T "F0" [1, 2] 1).1 :=
  ⟨rfl, rfl, rfl,
    iterate_batch_isolation w5T "F0" [1, 2] 1 0 1 (by decide) (by decide) (by decide)
      (by decide) "x" [w5Item] "G" w5Item rfl
      (by decide)
      rfl (List.mem_cons_self _ _) rfl⟩

/-- C6: within one batch response, a per-repository error never affects
sibling items: an item `B` with empty error is delivered to the consumer
while an item `A` with non-empty error is not — the callback sequence is
exactly the error-free items' options, in response order. -/
theorem iterate_per_repo_isolation (items : List indexOptionsItem) (A B : indexOptionsItem)
    (hA : A ∈ items) (hB : B ∈ items) (hAe : A.Error ≠ "") (hBe : B.Error = "") :
    B.IndexOptions ∈ processBatch items ∧
    processBatch items = (items.filter (fun o => o.Error == "")).map (fun o => o.IndexOptions) :=
  ⟨processBatch_mem items B hB hBe, processBatch_filter_map items⟩

/-- Witness for C6: a batch with one failed and one successful item. -/
theorem iterate_per_repo_isolation_witness :
    w6ItemA ∈ [w6ItemA, w6ItemB] ∧
    w6ItemA.Error = "clone failed" ∧
    w6ItemB.Error = "" ∧
    (w6ItemB.IndexOptions ∈ processBatch [w6ItemA, w6ItemB] ∧
      processBatch [w6ItemA, w6ItemB] =
        (([w6ItemA, w6ItemB].filter (fun o => o.Error == "")).map (fun o => o.IndexOptions))) :=
  ⟨List.mem_cons_self _ _, rfl, rfl,
    iterate_per_repo_isolation [w6ItemA, w6ItemB] w6ItemA w6ItemB (List.mem_cons_self _ _)
      (List.mem_cons_of_mem _ (List.mem_cons_self _ _)) (by decide) rfl⟩

/-- C7 (counterexample): `ForceIterateIndexOptions` drives callbacks from
the response items, not from the requested IDs.  For the requested ID 5
the transport succeeds but answers with the single item
`{RepoID = 0, Error = "not found"}` (exactly what the control plane and
the test double return for an unknown ID); the item triggers neither
`onError` (its `RepoID` is not positive) nor `onSuccess` (its error is
non-empty), so ID 5 receives zero callbacks instead of the claimed
exactly one. -/
theorem force_iterate_missing_callback_cex :
    c7T "" [5] = Except.ok ([nfItem], "F") ∧
    nfItem.Error = "not found" ∧
    nfItem.IndexOptions.RepoID = 0 ∧
    ((forceIterate c7T "" 10000 [5]).filter (isForRepo 5)).length = 0 ∧
    ¬ ((forceIterate c7T "" 10000 [5]).filter (isForRepo 5)).length = 1 :=
  ⟨rfl, rfl, rfl, rfl, by decide⟩

/-- C7 (amended): when a batch's transport call fails,
`ForceIterateIndexOptions` invokes `onError` once for every requested ID
of that batch — in particular, if every batch fails the callback trace is
exactly one `onError` per requested ID, in request order.  Within a
successful batch the callbacks are driven per response item, and each
item triggers at most one callback: `onSuccess` if its error is empty,
`onError` if its error is non-empty and its `RepoID` is positive, and
none otherwise (e.g. a "not found" item with `RepoID = 0`); requested IDs
absent from the response receive no callback. -/
theorem force_iterate_callback_routing {Fp : Type} (t : Transport Fp) (empty : Fp)
    (bs : Nat) (repos : List Nat) (m : String)
    (hbs : 0 < bs)
    (hfail : ∀ b, t empty b = Except.error m) :
    forceIterate t empty bs repos = repos.map (fun id => Event.err id m) ∧
    ∀ o : indexOptionsItem, (procItem o).length ≤ 1 := by
  constructor
  · obtain ⟨k, rfl⟩ := Nat.exists_eq_add_of_lt hbs
    unfold forceIterate
    simp only [hfail]
    rw [show (0 + k + 1) = k + 1 by omega] at *
    calc (batched repos (k + 1)).flatMap (fun b => b.map fun id => Event.err id m)
        = ((batched repos (k + 1)).map (fun b => b.map fun id => Event.err id m)).flatten := by
          rw [List.flatMap_def]
      _ = (batched repos (k + 1)).flatten.map (fun id => Event.err id m) := by
          rw [List.map_flatten]
      _ = repos.map (fun id => Event.err id m) := by rw [batched_flatten]
  · intro o
    by_cases h2 : o.Error = "" <;> by_cases h1 : 0 < o.IndexOptions.RepoID <;>
      simp [procItem, h1, h2]

/-- Witness for the amended C7 theorem: every batch fails with message
`"down"`, and each of the three requested IDs receives exactly one
`onError`, in order. -/
theorem force_iterate_callback_routing_witness :
    (0 : Nat) < 2 ∧
    (∀ b : List Nat, w7T "" b = Except.error "down") ∧
    forceIterate w7T "" 2 [1, 2, 3] = ([1, 2, 3].map fun id => Event.err id "down") :=
  ⟨by decide, fun b => rfl,
    (force_iterate_callback_routing w7T "" 2 [1, 2, 3] "down" (by decide) (fun b => rfl)).1⟩

/-- C8: `ForceIterateIndexOptions` bypasses the stored fingerprint
entirely.  (1) Its callback trace depends only on the transport's
item-level behaviour at the empty/absent fingerprint — so every request
carries the empty fingerprint and the response fingerprints are
discarded; (2) as a state transformer it leaves the client's stored
fingerprint state untouched; (3) a List pass run after it starts from
exactly the state it would have started from without it. -/
theorem force_iterate_fingerprint_bypass {Fp : Type} (t1 t2 : Transport Fp) (empty : Fp)
    (bs : Nat) (repos : List Nat)
    (c : ClientState) (tR : Transport String) (bsR : Nat) (reposR : List Nat)
    (now : Int) (draw : Nat) (indexed : List Nat)
    (t3 : Transport String) (repos3 : List Nat) (bs3 : Nat)
    (hagree : ∀ b, (t1 empty b).map Prod.fst = (t2 empty b).map Prod.fst) :
    forceIterate t1 empty bs repos = forceIterate t2 empty bs repos ∧
    (forceIterateClient c tR bsR reposR).2 = c ∧
    listPass (forceIterateClient c tR bsR reposR).2 now draw indexed t3 repos3 bs3 =
      listPass c now draw indexed t3 repos3 bs3 := by
  refine ⟨?_, rfl, rfl⟩
  unfold forceIterate
  congr 1
  funext b
  have h := hagree b
  cases h1 : t1 empty b with
  | error e1 =>
    cases h2 : t2 empty b with
    | error e2 =>
      rw [h1, h2] at h
      simp only [Except.map] at h
      obtain rfl : e1 = e2 := by injection h
      rfl
    | ok v2 =>
      rw [h1, h2] at h
      simp [Except.map] at h
  | ok v1 =>
    cases h2 : t2 empty b with
    | error e2 =>
      rw [h1, h2] at h
      simp [Except.map] at h
    | ok v2 =>
      obtain ⟨l1, g1⟩ := v1
      obtain ⟨l2, g2⟩ := v2
      rw [h1, h2] at h
      simp only [Except.map] at h
      obtain rfl : l1 = l2 := by injection h
      rfl

/-- Witness for C8: two transports that agree on items at the empty
fingerprint but return different response fingerprints there and behave
differently at every non-empty fingerprint produce the same callback
trace, and the client state is unchanged. -/
theorem force_iterate_fingerprint_bypass_witness :
    (∀ b : List Nat, (wt1 "" b).map Prod.fst = (wt2 "" b).map Prod.fst) ∧
    forceIterate wt1 "" 3 [1, 2, 3, 4] = forceIterate wt2 "" 3 [1, 2, 3, 4] ∧
    (forceIterateClient ⟨"F", 5⟩ wt1 3 [1, 2, 3, 4]).2 = (⟨"F", 5⟩ : ClientState) := by
  have H := force_iterate_fingerprint_bypass wt1 wt2 "" 3 [1, 2, 3, 4] ⟨"F", 5⟩ wt1 3 [1, 2, 3, 4]
    0 0 [] wt1 [] 1 (fun b => rfl)
  exact ⟨fun b => rfl, H.1, H.2.1⟩

/-- Round trip of the branch list through its proto encoding. -/
theorem branches_round_trip (l : List RepositoryBranch) :
    ((l.map (fun b => ({ Name := b.Name, Version := b.Version } : ZoektRepositoryBranch))).map
      (fun b => ({ Name := b.Name, Version := b.Version } : RepositoryBranch))) = l := by
  induction l with
  | nil => rfl
  | cons b rest ih => simp [ih]

/-- Round trip of the language map through its proto encoding, for parser
values that fit in a byte. -/
theorem languageMap_round_trip (l : List (String × Nat)) (h : ∀ p ∈ l, p.2 < 256) :
    ((l.map (fun p => ({ Language := p.1, Ctags := (p.2 : Int) } : LanguageMapping))).map
      (fun m => (m.Language, toUInt8 m.Ctags))) = l := by
  induction l with
  | nil => rfl
  | cons p rest ih =>
    obtain ⟨a, v⟩ := p
    have hv : v < 256 := h (a, v) (List.mem_cons_self _ _)
    simp only [List.map_cons]
    rw [ih (fun q hq => h q (List.mem_cons_of_mem _ hq))]
    have : toUInt8 ((v : Nat) : Int) = v := by
      unfold toUInt8
      omega
    rw [this]

/-- Round trip of the repository ID: `uint32 → int32 → uint32` is the
identity on values below `2^32`. -/
theorem repoID_round_trip (n : Nat) (h : n < 4294967296) : toUInt32 (toInt32 n) = n := by
  unfold toUInt32 toInt32
  split <;> omega

/-- C10: for every item whose repository ID fits in `uint32` and whose
language-map values fit the wire enum (a byte), decoding the encoding
restores every field — `RepoID`, `Name`, `LargeFiles`, `Symbols`,
`Branches`, `Priority`, `DocumentRanksVersion`, `Public`, `Fork`,
`Archived`, `LanguageMap` and `Error` — except `CloneURL`, which is
always empty after the round trip because clone URLs are not carried on
the wire. -/
theorem indexOptionsItem_proto_round_trip (o : indexOptionsItem)
    (hid : o.IndexOptions.RepoID < 4294967296)
    (hlm : ∀ p ∈ o.IndexOptions.LanguageMap, p.2 < 256) :
    indexOptionsItem.FromProto o.ToProto =
      { o with IndexOptions := { o.IndexOptions with CloneURL := "" } } := by
  obtain ⟨⟨rid, nm, cu, lf, sy, br, pr, drv, pu, fo, ar, lm⟩, er⟩ := o
  simp only [indexOptionsItem.ToProto, indexOptionsItem.FromProto] at *
  rw [repoID_round_trip rid hid, branches_round_trip br, languageMap_round_trip lm hlm]

/-- Witness for C10 at a fully populated concrete item: the round trip
restores everything except the clone URL, which comes back empty. -/
theorem indexOptionsItem_proto_round_trip_witness :
    w10Item.IndexOptions.RepoID < 4294967296 ∧
    (∀ p ∈ w10Item.IndexOptions.LanguageMap, p.2 < 256) ∧
    indexOptionsItem.FromProto w10Item.ToProto =
      { w10Item with IndexOptions := { w10Item.IndexOptions with CloneURL := "" } } :=
  ⟨by decide, by decide,
    indexOptionsItem_proto_round_trip w10Item (by decide) (by decide)⟩

/-- C9: `fakeID` is deterministic — it is a pure function of the
repository name's bytes — and always lands in `[1, 2^31 - 1]`; in
particular it never returns 0, the "not found" repository ID. -/
theorem fakeID_deterministic_positive_range (b1 b2 : List Nat) (h : b1 = b2) :
    fakeID b1 = fakeID b2 ∧ 1 ≤ fakeID b1 ∧ fakeID b1 ≤ 2 ^ 31 - 1 ∧ fakeID b1 ≠ 0 := by
  subst h
  have hm : checksumIEEE b1 % 2147483647 < 2147483647 :=
    Nat.mod_lt _ (by norm_num)
  unfold fakeID
  refine ⟨rfl, ?_, ?_, ?_⟩ <;> norm_num <;> omega

/-- Witness for C9 at the bytes of `"go"`, together with two concrete
evaluations of the model: the CRC-32/IEEE checksum of `"go"` and the
resulting fake ID (`3060306774 % (2^31 - 1) + 1`). -/
theorem fakeID_deterministic_positive_range_witness :
    ([103, 111] : List Nat) = [103, 111] ∧
    checksumIEEE [103, 111] = 3060306774 ∧
    fakeID [] = 1 ∧
    (fakeID [103, 111] = fakeID [103, 111] ∧ 1 ≤ fakeID [103, 111] ∧
      fakeID [103, 111] ≤ 2 ^ 31 - 1 ∧ fakeID [103, 111] ≠ 0) :=
  ⟨rfl, by decide, by decide, fakeID_deterministic_positive_range [103, 111] [103, 111] rfl⟩
